import Mathlib

/-!
Shallow embedding of the RenCpp binding layer (value/handle lifecycle,
error/control-signal bridge, stdio device shim) for verification.

Source files embedded:
- error.hpp        : exception classes (evaluation_error, has_no_value,
                     evaluation_cancelled, exit_command)
- values.cpp       : Value constructors and refined-view extractors for the
                     scalar kinds (unset, none, logic, character, integer,
                     float, date)
- rebol-stdio.cpp  : stdio device command handlers (Write_IO, Read_IO,
                     Open_Echo)

Machine integers are modelled as Nat/Int with explicit truncation where
overflow can matter.  C++ doubles appear in the embedded code only as
stored-and-retrieved payloads (no arithmetic is ever performed on them), so
they are modelled by their 64-bit patterns, on which storage is exact.
-/

namespace RenCpp

/-! ### The Rebol handle cell (REBVAL)

A fixed-layout tagged union: a type discriminant plus a payload.  The payload
variants record which union member was last written; `VAL_INT32` additionally
models the physical union overlay for the members the binding actually reads
through it (a logic cell's flag occupies the same integer slot).
-/

inductive RebolType
  | trash      -- the Dont::Initialize marker state (cell allocated, untagged)
  | unset
  | none
  | logic
  | char
  | integer
  | decimal
  | date
  deriving DecidableEq, Repr

inductive Payload
  | none
  | logicBits (b : Bool)          -- REBFLG stored by SET_LOGIC
  | charBits (uni : Nat)          -- REBUNI (16-bit) stored by SET_CHAR
  | integerBits (i : Int)         -- 64-bit integer stored by SET_INTEGER
  | decimalBits (bits : Nat)      -- 64-bit pattern of the stored double
  deriving DecidableEq, Repr

structure RebVal where
  tag : RebolType
  payload : Payload
  deriving DecidableEq, Repr

/-- The cell as left by `Value (Dont::Initialize)`: allocated but untagged. -/
def trashCell : RebVal := { tag := RebolType.trash, payload := Payload.none }

/-- Truncation of a 64-bit stored integer to a signed 32-bit value, as done
by the runtime's `VAL_INT32` accessor. -/
def toInt32 (i : Int) : Int := (i + 2147483648) % 4294967296 - 2147483648

def IS_UNSET (v : RebVal) : Bool := v.tag == RebolType.unset
def IS_NONE (v : RebVal) : Bool := v.tag == RebolType.none
def IS_LOGIC (v : RebVal) : Bool := v.tag == RebolType.logic
def IS_CHAR (v : RebVal) : Bool := v.tag == RebolType.char
def IS_INTEGER (v : RebVal) : Bool := v.tag == RebolType.integer
def IS_DECIMAL (v : RebVal) : Bool := v.tag == RebolType.decimal
def IS_DATE (v : RebVal) : Bool := v.tag == RebolType.date

def SET_UNSET (v : RebVal) : RebVal := { v with tag := RebolType.unset }
def SET_NONE (v : RebVal) : RebVal := { v with tag := RebolType.none }
def SET_LOGIC (_ : RebVal) (b : Bool) : RebVal :=
  { tag := RebolType.logic, payload := Payload.logicBits b }
/-- `SET_CHAR` stores a REBUNI (unsigned 16-bit) codepoint; the integral
conversion from the C++ argument reduces it mod 2^16. -/
def SET_CHAR (_ : RebVal) (c : Nat) : RebVal :=
  { tag := RebolType.char, payload := Payload.charBits (c % 65536) }
def SET_INTEGER (_ : RebVal) (i : Int) : RebVal :=
  { tag := RebolType.integer, payload := Payload.integerBits i }
def SET_DECIMAL (_ : RebVal) (bits : Nat) : RebVal :=
  { tag := RebolType.decimal, payload := Payload.decimalBits bits }

def VAL_LOGIC (v : RebVal) : Bool :=
  match v.payload with
  | Payload.logicBits b => b
  | _ => false

/-- `VAL_INT32` reads the cell's integer union slot as a signed 32-bit value.
Because the payload is a union, a logic flag written by `SET_LOGIC` is read
back through this accessor as 0/1 (this overlay is exactly what
`Logic::operator bool` relies on). -/
def VAL_INT32 (v : RebVal) : Int :=
  match v.payload with
  | Payload.logicBits b => if b then 1 else 0
  | Payload.integerBits i => toInt32 i
  | Payload.charBits uni => (uni : Int)
  | _ => 0

def VAL_CHAR (v : RebVal) : Nat :=
  match v.payload with
  | Payload.charBits uni => uni
  | _ => 0

def VAL_DECIMAL (v : RebVal) : Nat :=
  match v.payload with
  | Payload.decimalBits bits => bits
  | _ => 0

/-! ### Refined-view scalar extraction operators (values.cpp)

Each C++ conversion operator is a computation that may throw, embedded as
`Except String`: `Except.error` is a thrown exception carrying the message.
-/

/-- `Logic::operator bool`: returns `VAL_INT32(&cell)` converted to bool. -/
def Logic.toBool (cell : RebVal) : Bool := VAL_INT32 cell != 0

/-- `Character::operator char`: throws `std::runtime_error` when the stored
codepoint is above 127, otherwise returns the codepoint as a char. -/
def Character.toChar (cell : RebVal) : Except String Nat :=
  let uni := VAL_CHAR cell
  if 127 < uni then Except.error "Non-ASCII codepoint cast to char"
  else Except.ok uni

/-- `Character::operator wchar_t`: `static_cast<wchar_t>(uni)` with no range
check (a 16-bit REBUNI always fits in the wide character type). -/
def Character.toWchar (cell : RebVal) : Except String Nat :=
  Except.ok (VAL_CHAR cell)

/-- `Character::codepoint`: returns the stored REBUNI as a long, no check. -/
def Character.codepoint (cell : RebVal) : Except String Nat :=
  Except.ok (VAL_CHAR cell)

/-- `Integer::operator int`: returns `VAL_INT32(&cell)`. -/
def Integer.toInt (cell : RebVal) : Int := VAL_INT32 cell

/-- `Float::operator double`: returns `VAL_DECIMAL(&cell)` (the stored
64-bit pattern, retrieved unchanged). -/
def Float.toDouble (cell : RebVal) : Nat := VAL_DECIMAL cell

/-! ### Engine references and two-phase Value construction (values.cpp)

Every scalar constructor in values.cpp has the literal shape

    Value::Value (payload, Engine * engine) : Value (Dont::Initialize)
    { SET_X(&cell, payload);
      if (not engine) engine = &Engine::runFinder();
      finishInit(engine->getHandle()); }

We model it as a sequence of primitive steps over a construction state that
also records an event log, so the ordering of the steps is a provable fact.
-/

structure EngineHandle where
  id : Nat
  deriving DecidableEq, Repr

structure Engine where
  handle : EngineHandle
  deriving DecidableEq, Repr

/-- Modelled from the spec: `Engine::runFinder` (engine.hpp, not under src/)
resolves "the current/default running engine instance"; it fails fatally when
none exists, so in the model the currently running engine is passed in as
`de` and discovery returns it. -/
def Engine.runFinder (de : Engine) : Engine := de

def Engine.getHandle (e : Engine) : EngineHandle := e.handle

inductive CtorEvent
  | setCell      -- a SET_X macro tagged the cell with type and payload
  | runFinder    -- default-engine discovery ran
  | finishInit   -- the cell was bound to the resolved engine's handle
  deriving DecidableEq, Repr

structure CtorState where
  cell : RebVal
  engineArg : Option Engine
  bound : Option EngineHandle
  log : List CtorEvent
  deriving DecidableEq, Repr

/-- State after `Value (Dont::Initialize)`: cell allocated but untagged,
engine argument as supplied, nothing bound yet. -/
def initState (engine : Option Engine) : CtorState :=
  { cell := trashCell, engineArg := engine, bound := Option.none, log := [] }

def doSetUnset (s : CtorState) : CtorState :=
  { s with cell := SET_UNSET s.cell, log := s.log ++ [CtorEvent.setCell] }

def doSetNone (s : CtorState) : CtorState :=
  { s with cell := SET_NONE s.cell, log := s.log ++ [CtorEvent.setCell] }

def doSetLogic (b : Bool) (s : CtorState) : CtorState :=
  { s with cell := SET_LOGIC s.cell b, log := s.log ++ [CtorEvent.setCell] }

def doSetChar (c : Nat) (s : CtorState) : CtorState :=
  { s with cell := SET_CHAR s.cell c, log := s.log ++ [CtorEvent.setCell] }

def doSetInteger (i : Int) (s : CtorState) : CtorState :=
  { s with cell := SET_INTEGER s.cell i, log := s.log ++ [CtorEvent.setCell] }

def doSetDecimal (bits : Nat) (s : CtorState) : CtorState :=
  { s with cell := SET_DECIMAL s.cell bits, log := s.log ++ [CtorEvent.setCell] }

/-- `if (not engine) engine = &Engine::runFinder();` -/
def doResolveEngine (de : Engine) (s : CtorState) : CtorState :=
  match s.engineArg with
  | Option.none =>
      { s with engineArg := Option.some (Engine.runFinder de),
               log := s.log ++ [CtorEvent.runFinder] }
  | Option.some _ => s

/-- Modelled from the spec: `finishInit(engine->getHandle())` (declared in
values.hpp, body not under src/) finishes two-phase construction by binding
the value to the resolved Engine Reference. -/
def doFinishInit (s : CtorState) : CtorState :=
  match s.engineArg with
  | Option.some e =>
      { s with bound := Option.some (Engine.getHandle e),
               log := s.log ++ [CtorEvent.finishInit] }
  | Option.none =>
      { s with log := s.log ++ [CtorEvent.finishInit] }

/-- `Value::Value (unset_t, Engine * engine)` -/
def ctorUnset (engine : Option Engine) (de : Engine) : CtorState :=
  doFinishInit (doResolveEngine de (doSetUnset (initState engine)))

/-- `Value::Value (none_t, Engine * engine)` -/
def ctorNone (engine : Option Engine) (de : Engine) : CtorState :=
  doFinishInit (doResolveEngine de (doSetNone (initState engine)))

/-- `Value::Value (bool someBool, Engine * engine)` -/
def ctorBool (someBool : Bool) (engine : Option Engine) (de : Engine) : CtorState :=
  doFinishInit (doResolveEngine de (doSetLogic someBool (initState engine)))

/-- `Value::Value (char c, Engine * engine)` -/
def ctorChar (c : Nat) (engine : Option Engine) (de : Engine) : CtorState :=
  doFinishInit (doResolveEngine de (doSetChar c (initState engine)))

/-- `Value::Value (wchar_t wc, Engine * engine)` -/
def ctorWchar (wc : Nat) (engine : Option Engine) (de : Engine) : CtorState :=
  doFinishInit (doResolveEngine de (doSetChar wc (initState engine)))

/-- `Value::Value (int someInt, Engine * engine)` -/
def ctorInt (someInt : Int) (engine : Option Engine) (de : Engine) : CtorState :=
  doFinishInit (doResolveEngine de (doSetInteger someInt (initState engine)))

/-- `Value::Value (double someDouble, Engine * engine)`; the double is
modelled by its 64-bit pattern, which SET_DECIMAL stores unchanged. -/
def ctorDouble (bits : Nat) (engine : Option Engine) (de : Engine) : CtorState :=
  doFinishInit (doResolveEngine de (doSetDecimal bits (initState engine)))

/-! ### The host-side Value proxy and its type tests (values.cpp) -/

structure Value where
  cell : RebVal
  engineHandle : Option EngineHandle
  deriving DecidableEq, Repr

def Value.isUnset (v : Value) : Bool := IS_UNSET v.cell
def Value.isNone (v : Value) : Bool := IS_NONE v.cell
def Value.isLogic (v : Value) : Bool := IS_LOGIC v.cell
def Value.isCharacter (v : Value) : Bool := IS_CHAR v.cell
def Value.isInteger (v : Value) : Bool := IS_INTEGER v.cell
def Value.isFloat (v : Value) : Bool := IS_DECIMAL v.cell
def Value.isDate (v : Value) : Bool := IS_DATE v.cell

/-- `Value::isTrue`: `isLogic() && VAL_LOGIC(&cell)`. -/
def Value.isTrue (v : Value) : Bool := v.isLogic && VAL_LOGIC v.cell

/-- `Value::isFalse`: `isLogic() && !VAL_LOGIC(&cell)`. -/
def Value.isFalse (v : Value) : Bool := v.isLogic && !(VAL_LOGIC v.cell)

/-! ### Error values and the host-native failure surface (error.hpp) -/

/-- Modelled from the spec: the runtime `Error` value (its constructor body,
rebol-error.cpp, is not under src/) is a first-class value denoting a raised
condition and is built from a message string. -/
structure Error where
  msg : String
  deriving DecidableEq, Repr

/-- Modelled from the spec: `to_string` (declared elsewhere, not under src/)
formats an Error value into its rendered human-readable description. -/
def to_string (e : Error) : String := e.msg

/-- `class evaluation_error : public std::exception` — fields as in
error.hpp: a copy of the Error plus the what-string. -/
structure evaluation_error where
  errorValue : Error
  whatString : String
  deriving DecidableEq, Repr

/-- The constructor `evaluation_error(Error const & error)`: copies the Error
and computes the what-string by `to_string(errorValue)` once, at construction
time. -/
def evaluation_error.ofError (error : Error) : evaluation_error :=
  { errorValue := error, whatString := to_string error }

/-- `evaluation_error::what()`: returns the stored string (a field read; no
recomputation). -/
def evaluation_error.what (e : evaluation_error) : String := e.whatString

/-- `evaluation_error::error()`: returns the stored Error value. -/
def evaluation_error.error (e : evaluation_error) : Error := e.errorValue

/-- `class exit_command : public std::exception` — fields as in error.hpp. -/
structure exit_command where
  codeValue : Int
  whatString : String
  deriving DecidableEq, Repr

/-- The constructor `exit_command(int code)`: stores the code and builds
`"ren::exit_command(" + std::to_string(code) + ")"` once. -/
def exit_command.ofCode (code : Int) : exit_command :=
  { codeValue := code,
    whatString := "ren::exit_command(" ++ toString code ++ ")" }

/-- `exit_command::what()`. -/
def exit_command.what (e : exit_command) : String := e.whatString

/-- `exit_command::code()`. -/
def exit_command.code (e : exit_command) : Int := e.codeValue

/-- The four distinct host-native failure kinds of error.hpp, each a separate
class derived directly from `std::exception` (none derived from another):
`evaluation_error`, `has_no_value`, `evaluation_cancelled`, `exit_command`.
As separate classes they are distinct, which the inductive's constructor
disjointness mirrors; `evaluation_cancelled` and `has_no_value` have no
fields, so their variants carry nothing. -/
inductive HostFailure
  | raisedError (e : evaluation_error)
  | noValue
  | cancelled
  | exitCmd (e : exit_command)
  deriving DecidableEq, Repr

/-- The virtual `what()` of each failure class; `evaluation_cancelled::what`
and `has_no_value::what` return fixed literals. -/
def HostFailure.what : HostFailure → String
  | HostFailure.raisedError e => e.what
  | HostFailure.noValue => "ren::has_no_value"
  | HostFailure.cancelled => "ren::evaluation_cancelled"
  | HostFailure.exitCmd e => e.what

/-- The Error value a failure carries, when it carries one (only
`evaluation_error` has an Error member). -/
def HostFailure.errorPayload : HostFailure → Option Error
  | HostFailure.raisedError e => Option.some e.errorValue
  | _ => Option.none

/-- The integer code a failure carries, when it carries one (only
`exit_command` has a code member). -/
def HostFailure.codePayload : HostFailure → Option Int
  | HostFailure.exitCmd e => Option.some e.codeValue
  | _ => Option.none

/-! ### The stdio device shim (rebol-stdio.cpp)

The device request (REBREQ) fields the commands touch, plus explicit host
stream states.  Commands are state transformers returning the device result
code together with the updated request and stream.  `Open_Echo` throws, so it
is embedded with `Except`.
-/

/-- Bit index of the RDM_NULL mode flag (the numeric value comes from the
runtime's device header and is immaterial here; only the bit test matters). -/
def RDM_NULL : Nat := 3

inductive DeviceResult
  | DR_DONE
  | DR_ERROR
  deriving DecidableEq, Repr

structure REBREQ where
  modes : Nat          -- flag bitmask
  data : List Nat      -- the request buffer (bytes)
  length : Nat         -- requested transfer length
  actual : Nat         -- bytes actually transferred
  error : Nat          -- device error code
  deriving DecidableEq, Repr

structure OStreamState where
  written : List Nat   -- bytes written so far
  good : Bool          -- stream state tested by `if (!os)`
  deriving DecidableEq, Repr

structure IStreamState where
  avail : List Nat     -- bytes remaining to be read
  deriving DecidableEq, Repr

/-- `Write_IO`: in null mode reports the full length as written and returns
without touching the stream; otherwise writes `length` bytes from the buffer
to the output stream, mapping a stream failure to error code 1020. -/
def Write_IO_cmd (req : REBREQ) (os : OStreamState) :
    DeviceResult × REBREQ × OStreamState :=
  if Nat.testBit req.modes RDM_NULL then
    (DeviceResult.DR_DONE, { req with actual := req.length }, os)
  else
    let os1 : OStreamState :=
      { os with written := os.written ++ req.data.take req.length }
    if !os1.good then
      (DeviceResult.DR_ERROR, { req with error := 1020 }, os1)
    else
      (DeviceResult.DR_DONE, { req with actual := req.length }, os1)

/-- `Read_IO`: in null mode stores 0 at `data[0]` and returns DR_DONE at once
(note: `req->actual = 0` sits after the null-mode early return, so `actual`
is left unchanged); otherwise zeroes `actual`, reads up to `length` bytes
into the buffer, failing with 1020 when the stream cannot supply `length`
bytes (istream::read sets failbit on a short read), else records the count
read. -/
def Read_IO_cmd (req : REBREQ) (ist : IStreamState) :
    DeviceResult × REBREQ × IStreamState :=
  if Nat.testBit req.modes RDM_NULL then
    (DeviceResult.DR_DONE, { req with data := req.data.set 0 0 }, ist)
  else
    let req1 : REBREQ := { req with actual := 0 }
    let got := ist.avail.take req.length
    let ist1 : IStreamState := { avail := ist.avail.drop req.length }
    let req2 : REBREQ := { req1 with data := got ++ req1.data.drop got.length }
    if got.length < req.length then
      (DeviceResult.DR_ERROR, { req2 with error := 1020 }, ist1)
    else
      (DeviceResult.DR_DONE, { req2 with actual := got.length }, ist1)

/-- `Open_Echo`: unconditionally throws `std::runtime_error` — echoing stdio
to a file is not supported by the binding. -/
def Open_Echo (_req : REBREQ) : Except String (DeviceResult × REBREQ) :=
  Except.error
    ("echo stdin and stdout to file not supported by binding" ++
     " in a direct fashion, you have to create a stream aggregator" ++
     " object that does it if you want that feature.")

/-- Whether an `Open_Echo` request completed successfully (did not throw). -/
def exceptSuccessful (x : Except String (DeviceResult × REBREQ)) : Bool :=
  match x with
  | Except.ok _ => true
  | Except.error _ => false

/-- The ordering/result contract a scalar constructor run must satisfy: the
first logged step tags the cell, the unique binding step is logged last, the
cell ends tagged with the expected type, the value ends bound to the supplied
engine's handle (or the discovered default engine's handle when none was
supplied), and in the latter case discovery is logged strictly before the
binding step. -/
abbrev ctorSpec (s : CtorState) (engineOpt : Option Engine) (de : Engine)
    (tag : RebolType) : Prop :=
  s.log.head? = Option.some CtorEvent.setCell
  ∧ s.log.getLast? = Option.some CtorEvent.finishInit
  ∧ s.log.count CtorEvent.finishInit = 1
  ∧ s.cell.tag = tag
  ∧ s.bound = Option.some (Engine.getHandle
      (match engineOpt with
       | Option.some e => e
       | Option.none => Engine.runFinder de))
  ∧ (engineOpt = Option.none → CtorEvent.runFinder ∈ s.log.dropLast)

/-! ## Theorems -/

/-- Claim C1: extracting a character value to the narrow single-byte native
character type fails with an encoding error exactly when the stored codepoint
exceeds the narrow representation's range (codepoints above 127); every
codepoint within that range is extracted successfully and unchanged. -/
theorem char_narrowing_encoding (uni : Nat) (h : uni < 65536) :
    ((∃ msg, Character.toChar
        { tag := RebolType.char, payload := Payload.charBits uni }
          = Except.error msg) ↔ 127 < uni)
    ∧ (uni ≤ 127 →
        Character.toChar { tag := RebolType.char, payload := Payload.charBits uni }
          = Except.ok uni) := by
  by_cases hgt : 127 < uni
  · constructor
    · simp [Character.toChar, VAL_CHAR, hgt]
    · intro hle
      omega
  · constructor
    · simp [Character.toChar, VAL_CHAR, hgt]
    · intro hle
      simp [Character.toChar, VAL_CHAR, hgt]

/-- Witness for C1 at the concrete codepoints 955 (fails) and 65 (succeeds,
lossless). -/
theorem char_narrowing_encoding_witness :
    ((∃ msg, Character.toChar
        { tag := RebolType.char, payload := Payload.charBits 955 }
          = Except.error msg) ↔ 127 < 955)
    ∧ (65 ≤ 127 →
        Character.toChar { tag := RebolType.char, payload := Payload.charBits 65 }
          = Except.ok 65) :=
  ⟨(char_narrowing_encoding 955 (by decide)).1,
   (char_narrowing_encoding 65 (by decide)).2⟩

/-- Claim C2: constructing `evaluation_error` from an Error stores a copy of
that Error and renders the description by `to_string` exactly once, at
construction; `what()` returns the stored string without recomputing it (it
is a plain field read, on every state) and `error()` returns the stored
Error. -/
theorem evaluation_error_precomputed :
    (∀ err : Error,
        (evaluation_error.ofError err).errorValue = err
        ∧ (evaluation_error.ofError err).whatString = to_string err)
    ∧ (∀ e : evaluation_error, e.what = e.whatString ∧ e.error = e.errorValue) :=
  ⟨fun _ => ⟨rfl, rfl⟩, fun _ => ⟨rfl, rfl⟩⟩

/-- Claim C3: the scalar round-trips — constructing a Value from a bool,
an int (any value representable in the 32-bit native int), or a double and
extracting through the matching refined view yields the payload unchanged. -/
theorem scalar_roundtrip :
    (∀ (b : Bool) (eo : Option Engine) (de : Engine),
        Logic.toBool (ctorBool b eo de).cell = b)
    ∧ (∀ (i : Int) (eo : Option Engine) (de : Engine),
        -2147483648 ≤ i → i < 2147483648 →
        Integer.toInt (ctorInt i eo de).cell = i)
    ∧ (∀ (bits : Nat) (eo : Option Engine) (de : Engine),
        Float.toDouble (ctorDouble bits eo de).cell = bits) := by
  refine ⟨?_, ?_, ?_⟩
  · intro b eo de
    cases eo <;> cases b <;> rfl
  · intro i eo de h1 h2
    cases eo <;>
      · simp [ctorInt, doFinishInit, doResolveEngine, doSetInteger, initState,
          Integer.toInt, VAL_INT32, SET_INTEGER, toInt32]
        omega
  · intro bits eo de
    cases eo <;> rfl

/-- Witness for C3's integer round-trip at 42 and -7. -/
theorem scalar_roundtrip_witness :
    Integer.toInt (ctorInt 42 Option.none { handle := { id := 0 } }).cell = 42
    ∧ Integer.toInt (ctorInt (-7) Option.none { handle := { id := 0 } }).cell = -7 :=
  ⟨scalar_roundtrip.2.1 42 Option.none { handle := { id := 0 } }
      (by decide) (by decide),
   scalar_roundtrip.2.1 (-7) Option.none { handle := { id := 0 } }
      (by decide) (by decide)⟩

/-- Claim C4: `exit_command` constructed with code c has `code() = c` and a
description that embeds that same code (it is exactly
`"ren::exit_command(" ++ toString c ++ ")"`). -/
theorem exit_command_code_description (c : Int) :
    (exit_command.ofCode c).code = c
    ∧ (exit_command.ofCode c).what = "ren::exit_command(" ++ toString c ++ ")"
    ∧ ∃ pre post, (exit_command.ofCode c).what = pre ++ toString c ++ post :=
  ⟨rfl, rfl, ⟨"ren::exit_command(", ")", rfl⟩⟩

/-- Claim C5: the cancellation failure carries no Error payload and no exit
code, its description is the fixed cancellation string, and it is a distinct
kind from the raised-error wrapper (the decidable equality test against any
raised-error failure computes to false). -/
theorem cancellation_no_payload_distinct :
    HostFailure.what HostFailure.cancelled = "ren::evaluation_cancelled"
    ∧ HostFailure.errorPayload HostFailure.cancelled = Option.none
    ∧ HostFailure.codePayload HostFailure.cancelled = Option.none
    ∧ ∀ e : evaluation_error,
        decide (HostFailure.cancelled = HostFailure.raisedError e) = false := by
  refine ⟨rfl, rfl, rfl, ?_⟩
  intro e
  simp

/-- Claim C6 counterexample: a null-mode read succeeds (DR_DONE) but reports
the request's stale `actual` value — here 5 bytes, not zero — because
`req->actual = 0` is only reached after the null-mode early return.  (Mode
bitmask 8 has bit RDM_NULL = 3 set.) -/
theorem null_read_reports_stale_actual :
    (Read_IO_cmd { modes := 8, data := [7], length := 1, actual := 5, error := 0 }
        { avail := [] }).1 = DeviceResult.DR_DONE
    ∧ (Read_IO_cmd { modes := 8, data := [7], length := 1, actual := 5, error := 0 }
        { avail := [] }).2.1.actual = 5
    ∧ decide ((Read_IO_cmd
        { modes := 8, data := [7], length := 1, actual := 5, error := 0 }
        { avail := [] }).2.1.actual = 0) = false := by
  decide

/-- Claim C6 (amended): with the device in null mode, every write succeeds
as a no-op on the host stream and reports the full requested length as
written; every read succeeds without touching the host stream, storing a
terminating 0 at the start of the buffer, but leaves the bytes-read count
(`actual`) unchanged from its prior value rather than reporting zero. -/
theorem null_device_semantics (req : REBREQ) (ost : OStreamState)
    (ist : IStreamState) (h : Nat.testBit req.modes RDM_NULL = true) :
    Write_IO_cmd req ost
      = (DeviceResult.DR_DONE, { req with actual := req.length }, ost)
    ∧ Read_IO_cmd req ist
      = (DeviceResult.DR_DONE, { req with data := req.data.set 0 0 }, ist) := by
  constructor
  · simp [Write_IO_cmd, h]
  · simp [Read_IO_cmd, h]

/-- Witness for amended C6 at a concrete null-mode request. -/
theorem null_device_semantics_witness :
    Write_IO_cmd { modes := 8, data := [1, 2], length := 2, actual := 0, error := 0 }
        { written := [], good := true }
      = (DeviceResult.DR_DONE,
         { modes := 8, data := [1, 2], length := 2, actual := 2, error := 0 },
         { written := [], good := true })
    ∧ Read_IO_cmd { modes := 8, data := [1, 2], length := 2, actual := 0, error := 0 }
        { avail := [9] }
      = (DeviceResult.DR_DONE,
         { modes := 8, data := [0, 2], length := 2, actual := 0, error := 0 },
         { avail := [9] }) :=
  null_device_semantics
    { modes := 8, data := [1, 2], length := 2, actual := 0, error := 0 }
    { written := [], good := true } { avail := [9] } (by decide)

/-- Claim C7: every scalar Value constructor (unset, none, logic, the two
character forms, integer, float) first tags the owned cell with the concrete
type, and only afterwards binds the value to the resolved Engine Reference;
when the engine argument is absent the default-engine discovery runs before
that binding, and the value ends bound to the resolved engine's handle. -/
theorem ctor_tag_then_bind (eo : Option Engine) (de : Engine) (b : Bool)
    (c : Nat) (wc : Nat) (i : Int) (bits : Nat) :
    ctorSpec (ctorUnset eo de) eo de RebolType.unset
    ∧ ctorSpec (ctorNone eo de) eo de RebolType.none
    ∧ ctorSpec (ctorBool b eo de) eo de RebolType.logic
    ∧ ctorSpec (ctorChar c eo de) eo de RebolType.char
    ∧ ctorSpec (ctorWchar wc eo de) eo de RebolType.char
    ∧ ctorSpec (ctorInt i eo de) eo de RebolType.integer
    ∧ ctorSpec (ctorDouble bits eo de) eo de RebolType.decimal := by
  cases eo <;>
    simp [ctorSpec, ctorUnset, ctorNone, ctorBool, ctorChar, ctorWchar,
      ctorInt, ctorDouble, doSetUnset, doSetNone, doSetLogic, doSetChar,
      doSetInteger, doSetDecimal, doResolveEngine, doFinishInit, initState,
      SET_UNSET, SET_NONE, SET_LOGIC, SET_CHAR, SET_INTEGER, SET_DECIMAL,
      trashCell, Engine.runFinder, Engine.getHandle]

/-- Witness for C7: with no engine supplied, the logic constructor logs the
cell-tagging step first and runs default-engine discovery strictly before the
binding step. -/
theorem ctor_tag_then_bind_witness :
    (ctorBool true Option.none { handle := { id := 0 } }).log.head?
      = Option.some CtorEvent.setCell
    ∧ CtorEvent.runFinder
        ∈ (ctorBool true Option.none { handle := { id := 0 } }).log.dropLast :=
  ⟨(ctor_tag_then_bind Option.none { handle := { id := 0 } } true 0 0 0 0).2.2.1.1,
   (ctor_tag_then_bind Option.none
      { handle := { id := 0 } } true 0 0 0 0).2.2.1.2.2.2.2.2 rfl⟩

/-- Claim C8: every echo-to-file open request fails loudly — `Open_Echo`
throws for every request and never completes successfully. -/
theorem open_echo_always_fails (req : REBREQ) :
    (∃ msg, Open_Echo req = Except.error msg)
    ∧ exceptSuccessful (Open_Echo req) = false :=
  ⟨⟨"echo stdin and stdout to file not supported by binding" ++
     " in a direct fashion, you have to create a stream aggregator" ++
     " object that does it if you want that feature.", rfl⟩, rfl⟩

/-- Claim C9: on every Value whose discriminant is not the logic kind both
`isTrue` and `isFalse` return false, and on every Value the two tests are
never simultaneously true. -/
theorem truth_tests_logic_only (v : Value) :
    (v.isLogic = false → v.isTrue = false ∧ v.isFalse = false)
    ∧ (v.isTrue && v.isFalse) = false := by
  constructor
  · intro h
    constructor
    · simp [Value.isTrue, h]
    · simp [Value.isFalse, h]
  · cases hv : VAL_LOGIC v.cell <;>
      cases hl : v.isLogic <;>
        simp [Value.isTrue, Value.isFalse, hv, hl]

/-- Witness for C9 at a non-logic (trash-tagged) Value. -/
theorem truth_tests_logic_only_witness :
    Value.isTrue { cell := trashCell, engineHandle := Option.none } = false
    ∧ Value.isFalse { cell := trashCell, engineHandle := Option.none } = false :=
  (truth_tests_logic_only
    { cell := trashCell, engineHandle := Option.none }).1 (by decide)

/-- Claim C10: wide-character and codepoint extraction from a character
value are total — they succeed and return the stored codepoint for every
stored codepoint, including those above the narrow single-byte range, with
no range check on these paths. -/
theorem wide_extraction_total (uni : Nat) :
    Character.toWchar (SET_CHAR trashCell uni) = Except.ok (uni % 65536)
    ∧ Character.codepoint (SET_CHAR trashCell uni) = Except.ok (uni % 65536)
    ∧ (127 < uni % 65536 →
        Character.toWchar (SET_CHAR trashCell uni) = Except.ok (uni % 65536)
        ∧ Character.codepoint (SET_CHAR trashCell uni)
            = Except.ok (uni % 65536)) :=
  ⟨rfl, rfl, fun _ => ⟨rfl, rfl⟩⟩

/-- Witness for C10 at codepoint 955, which exceeds the narrow range. -/
theorem wide_extraction_total_witness :
    Character.toWchar (SET_CHAR trashCell 955) = Except.ok 955
    ∧ Character.codepoint (SET_CHAR trashCell 955) = Except.ok 955 :=
  (wide_extraction_total 955).2.2 (by decide)

end RenCpp

